import Mathlib

/-!
Verification of `src/python/MaterialXTest/tests_to_html.py` against its
natural-language specification.

The script is embedded shallowly:

* Python strings are Lean `String`s; the relevant `os.path` helpers
  (`join`, `normpath`, `isabs`, suffix tests, negative slicing) are
  re-implemented character-faithfully for POSIX semantics.
* The filesystem seen by `os.walk(root)` is modelled as a list of entries,
  one per directory visited in top-down order, each carrying the chain of
  path components from the root together with the file names found there;
  `os.walk` then yields `(root joined with the chain, files)`.
* `createDiff` is modelled as a pure function from an explicit filesystem
  state (the set of existing paths plus oracles telling whether the
  external image operations succeed) to the post state and the log lines
  it prints.
* `main` is modelled as a pure function producing the exact sequence of
  `fh.write` calls (as structured `Item`s, each rendering to the exact
  string written by its source line), the `createDiff` invocations it
  makes, and the Python exception it raises, if any.  Two real crash
  modes of the script are modelled: the local variable `diffPath3` is
  only assigned inside the third-language diff branch, so `if diffPath3:`
  raises `UnboundLocalError` whenever that branch has not yet run, and
  `createDiff(fullDestPath, ...)` receives `None` when destination 1 is
  absent, raising `TypeError`.
-/

namespace TestsToHtml

/-- Python `s.startswith(p)` (also `os.path.isabs` when `p = "/"`). -/
def pyStartsWith (s p : String) : Bool :=
  p.data.isPrefixOf s.data

/-- Python `s.endswith(p)`. -/
def strEndsWith (s p : String) : Bool :=
  p.data.isSuffixOf s.data

/-- Python `s[:-n]` (equivalently `s[0:-n]`): for `n > 0` drop the last `n`
characters (all of them when `n ≥ len(s)`); Python's `s[:-0]` is `""`. -/
def pyNegSlice (s : String) (n : Nat) : String :=
  if n = 0 then "" else String.mk (s.data.take (s.data.length - n))

/-- POSIX `os.path.join(a, b)`:
`b` if `b` starts with `/`; `a + b` if `a` is empty or ends with `/`;
otherwise `a + "/" + b`. -/
def pjoin (a b : String) : String :=
  if pyStartsWith b "/" then b
  else if a = "" || strEndsWith a "/" then a ++ b
  else a ++ "/" ++ b

/-- Python `s.split('/')`, on the character list. -/
def splitOnSlash : List Char → List (List Char)
  | [] => [[]]
  | c :: rest =>
    let r := splitOnSlash rest
    if c = '/' then [] :: r
    else
      match r with
      | [] => [[c]]
      | h :: t => (c :: h) :: t

/-- The component-collapsing fold inside POSIX `os.path.normpath`. -/
def normpathComps (initialSlashes : Nat) (comps : List String) : List String :=
  comps.foldl (fun acc comp =>
    if comp = "" || comp = "." then acc
    else if comp ≠ ".." || (initialSlashes = 0 ∧ acc = []) ||
        (acc ≠ [] ∧ acc.getLast? = some "..") then acc ++ [comp]
    else if acc ≠ [] then acc.dropLast
    else acc) []

/-- POSIX `os.path.normpath`. -/
def normpath (p : String) : String :=
  if p = "" then "." else
  let initialSlashes : Nat :=
    if pyStartsWith p "/" then
      (if pyStartsWith p "//" && !pyStartsWith p "///" then 2 else 1)
    else 0
  let newComps := normpathComps initialSlashes ((splitOnSlash p.data).map String.mk)
  let path := String.mk (List.replicate initialSlashes '/') ++
    String.intercalate "/" newComps
  if path = "" then "." else path

/-- Python `os.path.exists` over a filesystem modelled as the list of existing
paths. -/
def fileExists (fs : List String) (p : String) : Bool :=
  fs.contains p

/-- Python `os.remove p` on the modelled filesystem. -/
def removeFile (fs : List String) (p : String) : List String :=
  fs.filter (fun q => !(q == p))

/-- The `if os.path.exists(p): os.remove(p)` idiom used by `createDiff`. -/
def removeIfExists (fs : List String) (p : String) : List String :=
  if fileExists fs p then removeFile fs p else fs

/-- State and oracles for one `createDiff` call: the set of paths that
exist on disk, whether `Image.open(..).convert('RGB')` succeeds at a
path, whether `ImageChops.difference` succeeds, whether `diff.save(out)`
succeeds, and whether a failed save leaves a partial file behind
(before the `except` handler deletes it). -/
structure DiffEnv where
  exists0 : List String
  openOk : String → Bool
  diffOk : Bool
  saveOk : String → Bool
  savePartial : Bool

/-- Result of a `createDiff` call: the filesystem afterwards and the
lines printed. -/
structure DiffOut where
  fsAfter : List String
  logs : List String
deriving DecidableEq

/-- The function `createDiff(image1Path, image2Path, imageDiffPath)` from
`tests_to_html.py` lines 15-35.  The whole body is inside `try:`;
`except Exception:` deletes any file at `imageDiffPath` and prints the
failure message.  The function never lets an exception escape (for
string arguments). -/
def createDiff (env : DiffEnv) (image1Path image2Path imageDiffPath : String) : DiffOut :=
  let fs0 := removeIfExists env.exists0 imageDiffPath
  if !(fileExists fs0 image1Path) then
    ⟨fs0, ["Image diff input missing: " ++ image1Path]⟩
  else if !(fileExists fs0 image2Path) then
    ⟨fs0, ["Image diff input missing: " ++ image2Path]⟩
  else if env.openOk image1Path && env.openOk image2Path && env.diffOk
      && env.saveOk imageDiffPath then
    ⟨imageDiffPath :: fs0, []⟩
  else
    let fs1 := if env.openOk image1Path && env.openOk image2Path && env.diffOk
        && env.savePartial then imageDiffPath :: fs0 else fs0
    let fs2 := removeIfExists fs1 imageDiffPath
    ⟨fs2, ["Failed to create image diff between: " ++ image1Path ++ ", " ++ image2Path]⟩

/-- Parsed command-line arguments of `main` (the argparse defaults are
`inputdir = inputdir2 = inputdir3 = "."`, `outputfile = "tests.html"`,
flags off, width = height = 256, cellpadding = 0, tableborder = 3,
sourcelang = "glsl", destlang = "osl", destlang2 = ""). -/
structure Args where
  inputdir : String
  inputdir2 : String
  inputdir3 : String
  outputfile : String
  CREATE_DIFF : Bool
  ENABLE_TIMESTAMPS : Bool
  imagewidth : Int
  imageheight : Int
  cellpadding : Int
  tableborder : Int
  sourcelang : String
  destlang : String
  destlang2 : String

/-- The ambient state `main` reads: the working directory, the
filesystem under `args.inputdir` as seen by `os.walk` (for each
directory visited in top-down order, the chain of path components from
the root together with the file names listed there), the
`os.path.isfile` predicate and formatted `datetime` modification-time
strings used for timestamps, and the module-level `DIFF_ENABLED` flag
(whether importing PIL succeeded). -/
structure Env where
  cwd : String
  fsEntries : List (List String × List String)
  isfile : String → Bool
  mtimeStr : String → String
  DIFF_ENABLED : Bool

/-- Which of the six image/caption cells of a report row an emitted cell
belongs to (keyed by the write site in `main` that produces it). -/
inductive CellKind where
  | src
  | dest
  | dest2
  | diff1
  | diff2
  | diff3
deriving DecidableEq

/-- One `fh.write` call of `main`, as structured data; `render` maps each
constructor to the exact string the corresponding source line writes. -/
inductive Item where
  | htmlOpen
  | styleOpen
  | styleText (s : String)
  | styleClose
  | bodyOpen
  | heading (s : String)
  | tableClose
  | pLabel (s : String)
  | tableOpen
  | trOpen
  | trClose
  | imgCell (k : CellKind) (uri path : String) (h w : Int)
  | caption (k : CellKind) (name : String)
  | timestampNote (ts : String)
  | tdClose
  | diffCaption (k : CellKind) (a b : String)
  | bodyClose
  | htmlClose
deriving DecidableEq

/-- The exact string each `Item` stands for in the output file. -/
def render : Item → String
  | .htmlOpen => "<html>\n"
  | .styleOpen => "<style>\n"
  | .styleText s => s
  | .styleClose => "</style>"
  | .bodyOpen => "<body>\n"
  | .heading s => "<h3>" ++ s ++ "</h3>\n"
  | .tableClose => "</table>\n"
  | .pLabel s => "<p>" ++ s ++ ":</p>\n"
  | .tableOpen => "<table>\n"
  | .trOpen => "<tr>\n"
  | .trClose => "</tr>\n"
  | .imgCell _ uri path h w =>
      "<td class=\x27td_image\x27><img src=\x27" ++ uri ++ path ++ "\x27 height=\x27" ++
        toString h ++ "\x27 width=\x27" ++ toString w ++
        "\x27 loading=\x27lazy\x27 style=\x27background-color:black;\x27/></td>\n"
  | .caption _ name => "<td align=\x27center\x27>" ++ name
  | .timestampNote ts => "<br>(" ++ ts ++ ")"
  | .tdClose => "</td>\n"
  | .diffCaption _ a b => "<td align=\x27center\x27>Difference " ++ a ++ " vs. " ++ b ++ " </td>\n"
  | .bodyClose => "</body>\n"
  | .htmlClose => "</html>\n"

/-- The whole document as written to the output file. -/
def renderAll (items : List Item) : String :=
  items.foldr (fun it acc => render it ++ acc) ""

/-- The Python exceptions `main` can raise. -/
inductive RunError where
  /-- Exception `UnboundLocalError` at `if diffPath3:`: `diffPath3` is assigned only
  inside the third-language diff branch and never initialised. -/
  | diffPath3Unbound
  /-- Exception `TypeError` from `os.path.isfile(None)` in a timestamp check when the
  corresponding full path is `None`. -/
  | isfileNone
  /-- Exception `TypeError` escaping `createDiff(fullDestPath, fullDestPath2, diffPath3)`
  when `fullDestPath` is `None` (string concatenation with `None` inside the
  `except` handler re-raises). -/
  | createDiffNonePath
deriving DecidableEq

/-- Line 74: `useThirdLang = True if args.destlang2 and (args.inputdir != args.inputdir3
or args.sourcelang != args.destlang2) else False` (line 74). -/
def useThirdLang (args : Args) : Bool :=
  !(args.destlang2 == "") &&
    (!(args.inputdir == args.inputdir3) || !(args.sourcelang == args.destlang2))

/-- The text of the `<h3>` heading (lines 70-79): `dirN` is the working
directory when the corresponding input directory is `"."`. -/
def headContent (args : Args) (cwd : String) : String :=
  let dir1 := if args.inputdir == "." then cwd else args.inputdir
  let dir2 := if args.inputdir2 == "." then cwd else args.inputdir2
  let dir3 := if args.inputdir3 == "." then cwd else args.inputdir3
  if useThirdLang args then
    args.sourcelang ++ " (in: " ++ dir1 ++ ") vs " ++ args.destlang ++ " (in: " ++ dir2 ++
      ") vs " ++ args.destlang2 ++ " (in: " ++ dir3 ++ ")"
  else
    args.sourcelang ++ " (in: " ++ dir1 ++ ") vs " ++ args.destlang ++ " (in: " ++ dir2 ++ ")"

/-- Everything `main` writes before the row loop (lines 57-79): the
`<html>`, `<style>` block, `<body>` and the heading. -/
def preItems (args : Args) (cwd : String) : List Item :=
  [Item.htmlOpen, Item.styleOpen,
   Item.styleText "td \x7b",
   Item.styleText ("    padding: " ++ toString args.cellpadding ++ ";"),
   Item.styleText ("    border: " ++ toString args.tableborder ++ "px solid black;"),
   Item.styleText "\x7d",
   Item.styleText "table, tbody, th, .td_image \x7b",
   Item.styleText "    border-collapse: collapse;",
   Item.styleText "    padding: 0;",
   Item.styleText "    margin: 0;",
   Item.styleText "\x7d",
   Item.styleClose, Item.bodyOpen,
   Item.heading (headContent args cwd)]

/-- Model of `os.walk(root)`: each modelled entry's component chain is joined onto
the root to give the `subdir` value, paired with the file names there. -/
def walkDirs (root : String) (fsEntries : List (List String × List String)) :
    List (String × List String) :=
  fsEntries.map (fun e => (e.1.foldl pjoin root, e.2))

/-- File discovery (lines 87-96): every walked file whose name ends with
`sourcelang + ".png"`, paired with its walk directory, in walk order. -/
def discoverSources (root sl : String) (fsEntries : List (List String × List String)) :
    List (String × String) :=
  (walkDirs root fsEntries).flatMap (fun e =>
    (e.2.filter (fun f => strEndsWith f (sl ++ ".png"))).map (fun f => (f, e.1)))

/-- Destination-1 resolution (lines 104-115): if the two input
directories or the two languages differ, strip `len(sourcelang + ".png")`
characters from the source name, append `destlang + ".png"`, and join
`inputdir2` with the source's walk directory; otherwise the pair
`("", none)` models Python's `destFile = ""` / `destPath = None`. -/
def resolveDest1 (id1 id2 sl dl sf sp : String) : String × Option String :=
  if !(id1 == id2) || !(sl == dl) then
    (pyNegSlice sf (sl ++ ".png").length ++ dl ++ ".png", some (pjoin id2 sp))
  else ("", none)

/-- Destination-2 resolution (lines 117-124): computed whenever
`useThirdLang`, with the directory joined from `inputdir2` (not
`inputdir3`) exactly as in the source. -/
def resolveDest2 (u : Bool) (id2 sl dl2 sf sp : String) : String × Option String :=
  if u then
    (pyNegSlice sf (sl ++ ".png").length ++ dl2 ++ ".png", some (pjoin id2 sp))
  else ("", none)

/-- Line 130: `os.path.join(destPath, destFile) if destFile else None` (also lines
130-132).  The resolver invariant guarantees a nonempty file name comes
with a `some` directory, so the `(f, none)` row of the match is
unreachable for resolver-produced pairs. -/
def fullPathOf : String × Option String → Option String
  | (f, some d) => if f == "" then none else some (pjoin d f)
  | (_, none) => none

/-- A diff artifact path (lines 148, 154, 156):
`fullSourcePath[0:-8] + "_" + a + "_vs_" + b + "_diff.png"`. -/
def diffName (fsp a b : String) : String :=
  pyNegSlice fsp 8 ++ "_" ++ a ++ "_vs_" ++ b ++ "_diff.png"

/-- One precomputed row: source file and walk directory plus the two
destination resolutions (lines 98-124). -/
structure RowData where
  sf : String
  sp : String
  dest1 : String × Option String
  dest2 : String × Option String

/-- The loop-invariant data of the row loop. -/
structure LoopCtx where
  u : Bool
  fileUri : String
  sl : String
  dl : String
  dl2 : String
  createDiffFlag : Bool
  diffEnabled : Bool
  timestamps : Bool
  imageheight : Int
  imagewidth : Int
  isfile : String → Bool
  mtimeStr : String → String

/-- Python truthiness of an optional string (`None` and `""` are falsy). -/
def optTruthy : Option String → Bool
  | some p => !(p == "")
  | none => false

/-- An image cell write guarded by `if <path>:` (lines 166-177). -/
def optImgCell (ctx : LoopCtx) (k : CellKind) (o : Option String) : List Item :=
  match o with
  | some p =>
      if p == "" then []
      else [Item.imgCell k ctx.fileUri p ctx.imageheight ctx.imagewidth]
  | none => []

/-- A caption-row timestamp fragment
(`if args.ENABLE_TIMESTAMPS and os.path.isfile(path): fh.write("<br>(…)")`,
lines 183-195); `none` models the `TypeError` from `os.path.isfile(None)`. -/
def tsFragment (ctx : LoopCtx) (o : Option String) : Option (List Item) :=
  if ctx.timestamps then
    match o with
    | some p => some (if ctx.isfile p then [Item.timestampNote (ctx.mtimeStr p)] else [])
    | none => none
  else some []

/-- The table-grouping writes at the top of the loop body (lines
134-139): close the previous table (unless this is the first row) and
open a new one whenever the walk directory changes. -/
def groupItemsOf (r : RowData) (curPath : String) : List Item :=
  if curPath == r.sp then [] else
    (if curPath == "" then [] else [Item.tableClose]) ++
    [Item.pLabel (normpath r.sp), Item.tableOpen]

/-- The guard of the first diff (line 147):
`if sourceFile and destFile and DIFF_ENABLED and args.CREATE_DIFF`. -/
def rowCond1 (ctx : LoopCtx) (r : RowData) : Bool :=
  !(r.sf == "") && !(r.dest1.1 == "") && ctx.diffEnabled && ctx.createDiffFlag

/-- Value `diffPath` (line 148; `None` when the guard fails, line 151). -/
def rowDiff1 (ctx : LoopCtx) (r : RowData) : Option String :=
  if rowCond1 ctx r then some (diffName (pjoin r.sp r.sf) ctx.sl ctx.dl) else none

/-- The `createDiff(fullSourcePath, fullDestPath, diffPath)` call (line
149) when the guard holds. -/
def rowCalls1 (ctx : LoopCtx) (r : RowData) : List (String × String × String) :=
  if rowCond1 ctx r then
    [(pjoin r.sp r.sf, (fullPathOf r.dest1).getD "",
      diffName (pjoin r.sp r.sf) ctx.sl ctx.dl)]
  else []

/-- The guard of the third-language diffs (line 153):
`if useThirdLang and sourceFile and destFile2 and DIFF_ENABLED and
args.CREATE_DIFF`. -/
def rowCond2 (ctx : LoopCtx) (r : RowData) : Bool :=
  ctx.u && !(r.sf == "") && !(r.dest2.1 == "") && ctx.diffEnabled && ctx.createDiffFlag

/-- The diff-generation stage of the loop body (lines 141-158): returns
`(diffPath, diffPath2, diffPath3, createDiff calls, exception)`.  The
`else` branch of the third-language conditional sets only
`diffPath2 = None`, so `diffPath3` keeps its previous state `dp3`; and
when destination 1 is absent, `createDiff(fullDestPath, ...)` is called
with `None` and raises (after the `createDiff(..., diffPath2)` call). -/
def rowDiffStage (ctx : LoopCtx) (r : RowData) (dp3 : Option String) :
    Option String × Option String × Option String ×
      List (String × String × String) × Option RunError :=
  let fsp := pjoin r.sp r.sf
  let fdp2O := fullPathOf r.dest2
  if rowCond2 ctx r then
    let dp2v := diffName fsp ctx.sl ctx.dl2
    let dp3v := diffName fsp ctx.dl ctx.dl2
    match fullPathOf r.dest1 with
    | some fdp =>
        (rowDiff1 ctx r, some dp2v, some dp3v,
         rowCalls1 ctx r ++ [(fsp, fdp2O.getD "", dp2v), (fdp, fdp2O.getD "", dp3v)], none)
    | none =>
        (rowDiff1 ctx r, some dp2v, some dp3v,
         rowCalls1 ctx r ++ [(fsp, fdp2O.getD "", dp2v)], some RunError.createDiffNonePath)
  else
    (rowDiff1 ctx r, none, dp3, rowCalls1 ctx r, none)

/-- The body of the row loop (lines 128-201) for one row: given the
previous `curPath` and the state of the local `diffPath3` (`none` =
still unbound), produce the items written, the `createDiff` calls made,
the exception raised (if any), and the new `diffPath3`. -/
def processRow (ctx : LoopCtx) (r : RowData) (curPath : String) (dp3 : Option String) :
    List Item × List (String × String × String) × Option RunError × Option String :=
  let fsp := pjoin r.sp r.sf
  let fspO : Option String := if r.sf == "" then none else some fsp
  let fdpO := fullPathOf r.dest1
  let fdp2O := fullPathOf r.dest2
  let groupItems := groupItemsOf r curPath
  let stage := rowDiffStage ctx r dp3
  let dp1 := stage.1
  let dp2 := stage.2.1
  let dp3new := stage.2.2.1
  let calls := stage.2.2.2.1
  match stage.2.2.2.2 with
  | some e => (groupItems, calls, some e, dp3new)
  | none =>
    let imgRowA : List Item :=
      [Item.trOpen] ++ optImgCell ctx CellKind.src fspO ++ optImgCell ctx CellKind.dest fdpO ++
      optImgCell ctx CellKind.dest2 fdp2O ++ optImgCell ctx CellKind.diff1 dp1 ++
      optImgCell ctx CellKind.diff2 dp2
    match dp3new with
    | none =>
        (groupItems ++ imgRowA, calls, some RunError.diffPath3Unbound, none)
    | some p3 =>
      let imgRow := imgRowA ++
        (if p3 == "" then []
         else [Item.imgCell CellKind.diff3 ctx.fileUri p3 ctx.imageheight ctx.imagewidth]) ++
        [Item.trClose]
      let cap1 : List Item := if optTruthy fspO then [Item.caption CellKind.src r.sf] else []
      match tsFragment ctx fspO with
      | none =>
          (groupItems ++ imgRow ++ [Item.trOpen] ++ cap1,
           calls, some RunError.isfileNone, some p3)
      | some ts1 =>
        let cap2 : List Item :=
          if optTruthy fdpO then [Item.caption CellKind.dest r.dest1.1] else []
        match tsFragment ctx fdpO with
        | none =>
            (groupItems ++ imgRow ++ [Item.trOpen] ++ cap1 ++ ts1 ++ [Item.tdClose] ++ cap2,
             calls, some RunError.isfileNone, some p3)
        | some ts2 =>
          let cap3 : List Item :=
            if optTruthy fdp2O then [Item.caption CellKind.dest2 r.dest2.1] else []
          match tsFragment ctx fdp2O with
          | none =>
              (groupItems ++ imgRow ++ [Item.trOpen] ++ cap1 ++ ts1 ++ [Item.tdClose] ++
                 cap2 ++ ts2 ++ [Item.tdClose] ++ cap3,
               calls, some RunError.isfileNone, some p3)
          | some ts3 =>
            let dcap1 : List Item :=
              if optTruthy dp1 then [Item.diffCaption CellKind.diff1 ctx.sl ctx.dl] else []
            let dcap2 : List Item :=
              if optTruthy dp2 then [Item.diffCaption CellKind.diff2 ctx.sl ctx.dl2] else []
            let dcap3 : List Item :=
              if p3 == "" then [] else [Item.diffCaption CellKind.diff3 ctx.dl ctx.dl2]
            (groupItems ++ imgRow ++ [Item.trOpen] ++ cap1 ++ ts1 ++ [Item.tdClose] ++
               cap2 ++ ts2 ++ [Item.tdClose] ++ cap3 ++ ts3 ++ [Item.tdClose] ++
               dcap1 ++ dcap2 ++ dcap3 ++ [Item.trClose],
             calls, none, some p3)

/-- Accumulated result of the row loop. -/
structure LoopOut where
  items : List Item
  calls : List (String × String × String)
  err : Option RunError

/-- The row loop: runs `processRow` over the rows in discovery order,
stopping at the first exception. -/
def processRows (ctx : LoopCtx) : List RowData → String → Option String → LoopOut
  | [], _, _ => ⟨[], [], none⟩
  | r :: rest, curPath, dp3 =>
    match processRow ctx r curPath dp3 with
    | (is, cs, some e, _) => ⟨is, cs, some e⟩
    | (is, cs, none, dp3new) =>
      let tail := processRows ctx rest r.sp dp3new
      ⟨is ++ tail.items, cs ++ tail.calls, tail.err⟩

/-- A whole run of `main`: what was written, printed, which `createDiff`
calls were made, and the exception that escaped (if any; on an
exception the writes stop at the raise point and the closing tags are
never written). -/
structure RunResult where
  items : List Item
  logs : List String
  diffCalls : List (String × String × String)
  err : Option RunError

/-- The `if not args.inputdir2: args.inputdir2 = args.inputdir`
normalisation (lines 84-85), applied after the heading is written. -/
def effInputdir2 (args : Args) : String :=
  if args.inputdir2 == "" then args.inputdir else args.inputdir2

/-- The sources discovered by `main` (lines 88-96). -/
def mainSources (env : Env) (args : Args) : List (String × String) :=
  discoverSources args.inputdir args.sourcelang env.fsEntries

/-- The rows of `main`'s loop, pairing each discovered source with its
precomputed destination resolutions (lines 98-124). -/
def mainRows (env : Env) (args : Args) : List RowData :=
  (mainSources env args).map (fun pr =>
    RowData.mk pr.1 pr.2
      (resolveDest1 args.inputdir (effInputdir2 args) args.sourcelang args.destlang pr.1 pr.2)
      (resolveDest2 (useThirdLang args) (effInputdir2 args) args.sourcelang args.destlang2
        pr.1 pr.2))

/-- The loop-invariant data assembled by `main` (`fileUri` is
`'file:///'` exactly when `os.path.isabs(args.outputfile)`, lines
160-163). -/
def mainCtx (env : Env) (args : Args) : LoopCtx :=
  LoopCtx.mk (useThirdLang args)
    (if pyStartsWith args.outputfile "/" then "file:///" else "")
    args.sourcelang args.destlang args.destlang2
    args.CREATE_DIFF env.DIFF_ENABLED args.ENABLE_TIMESTAMPS
    args.imageheight args.imagewidth env.isfile env.mtimeStr

/-- The function `main(args)` from `tests_to_html.py` lines 37-201 (after argument
parsing).  Note: the matching `inputdir3` normalisation (lines 86-87)
is dead code — `args.inputdir3` is never read again — so it is not
modelled further. -/
def main (env : Env) (args : Args) : RunResult :=
  let logsPre : List String :=
    if !env.DIFF_ENABLED && args.CREATE_DIFF then
      ["--diff argument ignored. Diff utility not installed."]
    else []
  let lp := if (mainSources env args).isEmpty then LoopOut.mk [] [] none
    else processRows (mainCtx env args) (mainRows env args) "" none
  match lp.err with
  | some e => RunResult.mk (preItems args env.cwd ++ lp.items) logsPre lp.calls (some e)
  | none => RunResult.mk
      (preItems args env.cwd ++ lp.items ++ [Item.tableClose, Item.bodyClose, Item.htmlClose])
      logsPre lp.calls none

/-- Does an item belong to the third-language column family: the
destination-2 image or caption cell, the source-vs-destination-2 diff
cell, or the destination-1-vs-destination-2 diff cell? -/
def kindIsThird : CellKind → Bool
  | .dest2 => true
  | .diff2 => true
  | .diff3 => true
  | _ => false

/-- Classify an emitted item as third-language-related (see
`kindIsThird`). -/
def isThirdLangItem : Item → Bool
  | .imgCell k _ _ _ _ => kindIsThird k
  | .caption k _ => kindIsThird k
  | .diffCaption k _ _ => kindIsThird k
  | _ => false

/-- An HTML tag boundary written by the program. -/
inductive TagEv where
  | openTag (name : String)
  | closeTag (name : String)
deriving DecidableEq

/-- The tag boundaries each item contributes (`img` and `br` are void
elements; text payloads are ignored). -/
def tagEvents : Item → List TagEv
  | .htmlOpen => [TagEv.openTag "html"]
  | .styleOpen => [TagEv.openTag "style"]
  | .styleText _ => []
  | .styleClose => [TagEv.closeTag "style"]
  | .bodyOpen => [TagEv.openTag "body"]
  | .heading _ => [TagEv.openTag "h3", TagEv.closeTag "h3"]
  | .tableClose => [TagEv.closeTag "table"]
  | .pLabel _ => [TagEv.openTag "p", TagEv.closeTag "p"]
  | .tableOpen => [TagEv.openTag "table"]
  | .trOpen => [TagEv.openTag "tr"]
  | .trClose => [TagEv.closeTag "tr"]
  | .imgCell _ _ _ _ _ => [TagEv.openTag "td", TagEv.closeTag "td"]
  | .caption _ _ => [TagEv.openTag "td"]
  | .timestampNote _ => []
  | .tdClose => [TagEv.closeTag "td"]
  | .diffCaption _ _ _ => [TagEv.openTag "td", TagEv.closeTag "td"]
  | .bodyClose => [TagEv.closeTag "body"]
  | .htmlClose => [TagEv.closeTag "html"]

/-- Stack-check a tag-event stream: every close must match the innermost
open tag, and nothing may remain open at the end. -/
def checkTags : List TagEv → List String → Bool
  | [], [] => true
  | [], _ :: _ => false
  | TagEv.openTag n :: rest, st => checkTags rest (n :: st)
  | TagEv.closeTag n :: rest, st =>
    match st with
    | [] => false
    | m :: st2 => if n = m then checkTags rest st2 else false

/-- Is the emitted item stream well-formed in the sense of the spec:
every closing tag written matches a previously opened tag, and all
opened tags are closed? -/
def wellFormedTags (items : List Item) : Bool :=
  checkTags (items.flatMap tagEvents) []

/-! ## Helper lemmas -/

theorem strDataEq {s t : String} (h : s.data = t.data) : s = t := by
  cases s
  cases t
  exact congrArg String.mk h

theorem exists_prefix_of_strEndsWith {s p : String} (h : strEndsWith s p = true) :
    ∃ pre : String, s = pre ++ p := by
  have hs : p.data <:+ s.data := List.isSuffixOf_iff_suffix.mp h
  obtain ⟨t, ht⟩ := hs
  refine ⟨String.mk t, strDataEq ?_⟩
  rw [String.data_append]
  exact ht.symm

theorem pyNegSlice_append (pre post : String) (h : post.length ≠ 0) :
    pyNegSlice (pre ++ post) post.length = pre := by
  unfold pyNegSlice
  rw [if_neg h]
  refine strDataEq ?_
  show ((pre ++ post).data.take ((pre ++ post).data.length - post.length)) = pre.data
  rw [String.data_append]
  have hlen : (pre.data ++ post.data).length - post.length = pre.data.length := by
    rw [List.length_append]
    show pre.data.length + post.data.length - post.data.length = pre.data.length
    omega
  rw [hlen, List.take_left]

theorem suffix_length_ne_zero (sl : String) : (sl ++ ".png").length ≠ 0 := by
  rw [String.length_append]
  have : (".png" : String).length = 4 := rfl
  omega

theorem mem_of_fileExists {fs : List String} {p : String} (h : fileExists fs p = true) :
    p ∈ fs := by
  simpa [fileExists] using h

theorem fileExists_eq_false_iff {fs : List String} {p : String} :
    fileExists fs p = false ↔ p ∉ fs := by
  simp [fileExists]

theorem fileExists_removeFile_self (fs : List String) (p : String) :
    fileExists (removeFile fs p) p = false := by
  rw [fileExists_eq_false_iff]
  intro hmem
  have := (List.mem_filter.mp hmem).2
  simp at this

theorem fileExists_removeIfExists_self (fs : List String) (p : String) :
    fileExists (removeIfExists fs p) p = false := by
  unfold removeIfExists
  split
  · exact fileExists_removeFile_self fs p
  · rename_i h
    simpa using Bool.not_eq_true _ ▸ (Bool.eq_false_iff.mpr (fun hc => h (hc ▸ rfl)))

theorem fileExists_true_iff {fs : List String} {p : String} :
    fileExists fs p = true ↔ p ∈ fs := by
  simp [fileExists]

theorem fileExists_removeFile_of_ne {p q : String} (fs : List String) (h : p ≠ q) :
    fileExists (removeFile fs q) p = fileExists fs p := by
  rcases hfp : fileExists fs p with _ | _
  · rw [fileExists_eq_false_iff] at hfp ⊢
    intro hmem
    exact hfp (List.mem_filter.mp hmem).1
  · rw [fileExists_true_iff] at hfp ⊢
    exact List.mem_filter.mpr ⟨hfp, by simp [h]⟩

theorem fileExists_removeIfExists_of_ne {p q : String} (fs : List String) (h : p ≠ q) :
    fileExists (removeIfExists fs q) p = fileExists fs p := by
  unfold removeIfExists
  split
  · exact fileExists_removeFile_of_ne fs h
  · rfl

theorem fileExists_removeIfExists_false {fs : List String} {p : String}
    (h : fileExists fs p = false) (q : String) :
    fileExists (removeIfExists fs q) p = false := by
  unfold removeIfExists
  split
  · rw [fileExists_eq_false_iff] at h ⊢
    intro hmem
    exact h (List.mem_filter.mp hmem).1
  · exact h

/-! ## C6: `createDiff` with exactly one missing input -/

/-- C6 (corrected).  If exactly one of the two input paths exists before
the call — and, when the first input is the one that exists, the output
path does not alias it — then after the call no file exists at the
output path and exactly one "missing" message is printed, naming the
first input if it is missing and the second otherwise.  (Without the
aliasing proviso the claim fails: the call deletes the output path
first, which can make an aliased first input missing, and the message
then names the wrong path — see the counterexample.) -/
theorem createDiff_one_missing (env : DiffEnv) (p1 p2 outp : String)
    (h : (fileExists env.exists0 p1 = true ∧ fileExists env.exists0 p2 = false ∧ outp ≠ p1) ∨
         (fileExists env.exists0 p1 = false ∧ fileExists env.exists0 p2 = true)) :
    (createDiff env p1 p2 outp).logs =
      ["Image diff input missing: " ++ (if fileExists env.exists0 p1 then p2 else p1)] ∧
    fileExists (createDiff env p1 p2 outp).fsAfter outp = false := by
  unfold createDiff
  rcases h with ⟨h1, h2, hne⟩ | ⟨h1, h2⟩
  · have he1 : fileExists (removeIfExists env.exists0 outp) p1 = true := by
      rw [fileExists_removeIfExists_of_ne env.exists0 (fun hpq => hne hpq.symm)]
      exact h1
    have he2 : fileExists (removeIfExists env.exists0 outp) p2 = false :=
      fileExists_removeIfExists_false h2 outp
    simp only [he1, he2, h1, Bool.not_true, Bool.not_false, if_false, if_true]
    exact ⟨rfl, fileExists_removeIfExists_self env.exists0 outp⟩
  · have he1 : fileExists (removeIfExists env.exists0 outp) p1 = false :=
      fileExists_removeIfExists_false h1 outp
    simp only [he1, h1, Bool.not_false, if_true, if_false]
    exact ⟨rfl, fileExists_removeIfExists_self env.exists0 outp⟩

/-- Witness for `createDiff_one_missing`: input `a` exists, input `b`
does not, output path `c`. -/
theorem createDiff_one_missing_witness :
    ((fileExists ["a"] "a" = true ∧ fileExists ["a"] "b" = false ∧ "c" ≠ "a") ∨
      (fileExists ["a"] "a" = false ∧ fileExists ["a"] "b" = true)) ∧
    ((createDiff (DiffEnv.mk ["a"] (fun _ => true) true (fun _ => true) false) "a" "b" "c").logs =
      ["Image diff input missing: " ++ (if fileExists ["a"] "a" then "b" else "a")] ∧
     fileExists (createDiff (DiffEnv.mk ["a"] (fun _ => true) true (fun _ => true) false)
       "a" "b" "c").fsAfter "c" = false) :=
  ⟨by decide,
   createDiff_one_missing (DiffEnv.mk ["a"] (fun _ => true) true (fun _ => true) false)
     "a" "b" "c" (by decide)⟩

/-- Counterexample to C6 as stated: with files `{a}` on disk, calling the
diff operation as `createDiff("a", "b", "a")` is a call in which exactly
one of the two input paths (`b`) does not exist, yet the single missing
message emitted names `a`, not the missing input `b` — the initial
deletion of the output path `a` removed input `a` before the existence
check. -/
theorem createDiff_one_missing_counterexample :
    fileExists ["a"] "a" = true ∧ fileExists ["a"] "b" = false ∧
    (createDiff (DiffEnv.mk ["a"] (fun _ => true) true (fun _ => true) false) "a" "b" "a").logs =
      ["Image diff input missing: a"] ∧
    ("Image diff input missing: a" : String) ≠ "Image diff input missing: b" := by
  refine ⟨rfl, rfl, rfl, ?_⟩
  decide

/-! ## C7: `createDiff` failure of the imaging operations -/

/-- C7 (confirmed).  For any call in which both input paths still exist
after the initial deletion of the output path (i.e. the load stage is
actually reached) and the load/convert/difference/save pipeline fails,
the call returns normally with no file left at the output path and
exactly one failure message naming both inputs.  The hypotheses
`fileExists env.exists0 p1/p2 = true` mirror the claim's "both input
paths existing". -/
theorem createDiff_failure (env : DiffEnv) (p1 p2 outp : String)
    (hpre1 : fileExists env.exists0 p1 = true)
    (hpre2 : fileExists env.exists0 p2 = true)
    (h1 : fileExists (removeIfExists env.exists0 outp) p1 = true)
    (h2 : fileExists (removeIfExists env.exists0 outp) p2 = true)
    (hfail : (env.openOk p1 && env.openOk p2 && env.diffOk && env.saveOk outp) = false) :
    (createDiff env p1 p2 outp).logs =
      ["Failed to create image diff between: " ++ p1 ++ ", " ++ p2] ∧
    fileExists (createDiff env p1 p2 outp).fsAfter outp = false := by
  unfold createDiff
  simp only [h1, h2, hfail, Bool.not_true, Bool.false_eq_true, if_false]
  exact ⟨trivial, fileExists_removeIfExists_self _ outp⟩

/-- Witness for `createDiff_failure`: both inputs exist, opening images
fails. -/
theorem createDiff_failure_witness :
    (fileExists ["a", "b"] "a" = true ∧ fileExists ["a", "b"] "b" = true ∧
     fileExists (removeIfExists ["a", "b"] "c") "a" = true ∧
     fileExists (removeIfExists ["a", "b"] "c") "b" = true ∧
     (((fun (_ : String) => false) "a" && (fun (_ : String) => false) "b" && true &&
       (fun (_ : String) => true) "c") = false)) ∧
    ((createDiff (DiffEnv.mk ["a", "b"] (fun _ => false) true (fun _ => true) false)
        "a" "b" "c").logs =
      ["Failed to create image diff between: " ++ "a" ++ ", " ++ "b"] ∧
     fileExists (createDiff (DiffEnv.mk ["a", "b"] (fun _ => false) true (fun _ => true) false)
        "a" "b" "c").fsAfter "c" = false) :=
  ⟨⟨by decide, by decide, by decide, by decide, by decide⟩,
   createDiff_failure (DiffEnv.mk ["a", "b"] (fun _ => false) true (fun _ => true) false)
     "a" "b" "c" (by decide) (by decide) (by decide) (by decide) (by decide)⟩

/-! ## C4: destination-1 filename derivation -/

/-- C4 (confirmed).  For every discovered source file (one whose name
passes the discovery filter `strEndsWith sf (sourcelang ++ ".png")`),
whenever destination 1 is computed (the resolver returns a directory),
the derived filename is the source filename with the trailing
`sourcelang ++ ".png"` replaced by `destlang ++ ".png"`, the prefix
being byte-identical. -/
theorem dest1_suffix_substitution (id1 id2 sl dl sf sp f d : String)
    (hend : strEndsWith sf (sl ++ ".png") = true)
    (hres : resolveDest1 id1 id2 sl dl sf sp = (f, some d)) :
    ∃ pre : String, sf = pre ++ (sl ++ ".png") ∧ f = pre ++ (dl ++ ".png") := by
  obtain ⟨pre, hpre⟩ := exists_prefix_of_strEndsWith hend
  refine ⟨pre, hpre, ?_⟩
  unfold resolveDest1 at hres
  split at hres
  · have hf : f = pyNegSlice sf (sl ++ ".png").length ++ dl ++ ".png" :=
      (Prod.mk.injEq _ _ _ _ ▸ hres).1.symm
    rw [hf, hpre, pyNegSlice_append pre (sl ++ ".png") (suffix_length_ne_zero sl)]
    rw [String.append_assoc]
  · exact absurd ((Prod.mk.injEq _ _ _ _ ▸ hres).2) (by simp)

/-- Witness for `dest1_suffix_substitution` at a concrete input. -/
theorem dest1_suffix_substitution_witness :
    strEndsWith "foo_glsl.png" ("glsl" ++ ".png") = true ∧
    resolveDest1 "i" "j" "glsl" "osl" "foo_glsl.png" "s" = ("foo_osl.png", some "j/s") ∧
    ∃ pre : String, "foo_glsl.png" = pre ++ ("glsl" ++ ".png") ∧
      "foo_osl.png" = pre ++ ("osl" ++ ".png") :=
  ⟨by decide, by decide,
   dest1_suffix_substitution "i" "j" "glsl" "osl" "foo_glsl.png" "s" "foo_osl.png" "j/s"
     (by decide) (by decide)⟩

/-! ## C5: destination-1 absence under self-comparison -/

/-- C5 (confirmed).  Destination 1 is absent — empty filename and null
directory, modelled as `("", none)` — exactly when the source root
equals the destination-1 root and the source language equals the
destination-1 language; otherwise it is computed as the substituted
filename in `inputdir2` joined with the walk directory. -/
theorem dest1_absent_iff_self_comparison (id1 id2 sl dl sf sp : String) :
    (id1 = id2 ∧ sl = dl → resolveDest1 id1 id2 sl dl sf sp = ("", none)) ∧
    (¬(id1 = id2 ∧ sl = dl) →
      resolveDest1 id1 id2 sl dl sf sp =
        (pyNegSlice sf (sl ++ ".png").length ++ dl ++ ".png", some (pjoin id2 sp))) := by
  constructor
  · rintro ⟨h1, h2⟩
    unfold resolveDest1
    rw [if_neg]
    simp [h1, h2]
  · intro h
    unfold resolveDest1
    rw [if_pos]
    rcases Decidable.not_and_iff_or_not.mp h with h1 | h2
    · simp [h1]
    · simp [h2]

/-- Witness for `dest1_absent_iff_self_comparison` at a concrete input
(both implications exercised via the self-comparison case). -/
theorem dest1_absent_iff_self_comparison_witness :
    (("A" : String) = "A" ∧ ("glsl" : String) = "glsl") ∧
    resolveDest1 "A" "A" "glsl" "glsl" "foo_glsl.png" "A" = ("", none) :=
  ⟨⟨rfl, rfl⟩,
   (dest1_absent_iff_self_comparison "A" "A" "glsl" "glsl" "foo_glsl.png" "A").1 ⟨rfl, rfl⟩⟩

/-! ## Absolute-path lemmas for C10 -/

theorem pyStartsWith_append_left {a : String} (b : String)
    (h : pyStartsWith a "/" = true) : pyStartsWith (a ++ b) "/" = true := by
  unfold pyStartsWith at h ⊢
  rw [List.isPrefixOf_iff_prefix] at h ⊢
  rw [String.data_append]
  exact h.trans (List.prefix_append a.data b.data)

theorem pjoin_abs_left {a : String} (b : String) (h : pyStartsWith a "/" = true) :
    pyStartsWith (pjoin a b) "/" = true := by
  unfold pjoin
  split
  · assumption
  · split
    · exact pyStartsWith_append_left b h
    · exact pyStartsWith_append_left b (pyStartsWith_append_left "/" h)

theorem pjoin_abs_right {b : String} (a : String) (h : pyStartsWith b "/" = true) :
    pjoin a b = b := by
  unfold pjoin
  rw [if_pos h]

theorem foldl_pjoin_abs {a : String} (l : List String) (h : pyStartsWith a "/" = true) :
    pyStartsWith (l.foldl pjoin a) "/" = true := by
  induction l generalizing a with
  | nil => exact h
  | cons x xs ih => exact ih (pjoin_abs_left x h)

/-- Every walk directory of a discovered source entry is the root joined
with some component chain. -/
theorem discoverSources_dir {root sl : String}
    {fsEntries : List (List String × List String)} {sf sp : String}
    (h : (sf, sp) ∈ discoverSources root sl fsEntries) :
    ∃ l : List String, sp = l.foldl pjoin root := by
  unfold discoverSources walkDirs at h
  rw [List.mem_flatMap] at h
  obtain ⟨e, he, hmem⟩ := h
  rw [List.mem_map] at he hmem
  obtain ⟨entry, _, hentry⟩ := he
  obtain ⟨f, _, hf⟩ := hmem
  refine ⟨entry.1, ?_⟩
  have hsp : sp = e.1 := (Prod.mk.injEq _ _ _ _ ▸ hf).2.symm
  rw [hsp, ← hentry]

/-! ## C10: absolute source root pins destination directories -/

/-- C10 (confirmed).  If the configured source input directory is an
absolute path, then every discovered entry's walk directory is itself
absolute, and since `os.path.join` discards its first argument when the
second is absolute, every computed destination-1 and destination-2
directory equals the walk directory itself — regardless of the second
and third input directories. -/
theorem absolute_inputdir_dest_dirs (id1 id2 sl dl dl2 : String) (u : Bool)
    (fsEntries : List (List String × List String)) (sf sp : String)
    (habs : pyStartsWith id1 "/" = true)
    (hmem : (sf, sp) ∈ discoverSources id1 sl fsEntries) :
    ((resolveDest1 id1 id2 sl dl sf sp).2 = none ∨
     (resolveDest1 id1 id2 sl dl sf sp).2 = some sp) ∧
    ((resolveDest2 u id2 sl dl2 sf sp).2 = none ∨
     (resolveDest2 u id2 sl dl2 sf sp).2 = some sp) := by
  obtain ⟨l, hl⟩ := discoverSources_dir hmem
  have hspabs : pyStartsWith sp "/" = true := hl ▸ foldl_pjoin_abs l habs
  have hjoin : pjoin id2 sp = sp := pjoin_abs_right id2 hspabs
  constructor
  · unfold resolveDest1
    split
    · exact Or.inr (by rw [hjoin])
    · exact Or.inl rfl
  · unfold resolveDest2
    split
    · exact Or.inr (by rw [hjoin])
    · exact Or.inl rfl

/-- Witness for `absolute_inputdir_dest_dirs`: absolute source root
`/r`, different second root `q`, both destination directories resolve
to the walk directory `/r` itself. -/
theorem absolute_inputdir_dest_dirs_witness :
    pyStartsWith "/r" "/" = true ∧
    ("a_glsl.png", "/r") ∈ discoverSources "/r" "glsl" [([], ["a_glsl.png"])] ∧
    (((resolveDest1 "/r" "q" "glsl" "osl" "a_glsl.png" "/r").2 = none ∨
      (resolveDest1 "/r" "q" "glsl" "osl" "a_glsl.png" "/r").2 = some "/r") ∧
     ((resolveDest2 true "q" "glsl" "mdl" "a_glsl.png" "/r").2 = none ∨
      (resolveDest2 true "q" "glsl" "mdl" "a_glsl.png" "/r").2 = some "/r")) :=
  ⟨by decide, by decide,
   absolute_inputdir_dest_dirs "/r" "q" "glsl" "osl" "mdl" true [([], ["a_glsl.png"])]
     "a_glsl.png" "/r" (by decide) (by decide)⟩

/-! ## Row-loop reduction lemmas -/

theorem resolveDest2_false (id2 sl dl2 sf sp : String) :
    resolveDest2 false id2 sl dl2 sf sp = ("", none) := rfl

theorem rowCond2_u_false {ctx : LoopCtx} (r : RowData) (hu : ctx.u = false) :
    rowCond2 ctx r = false := by
  unfold rowCond2
  rw [hu]
  simp

theorem rowDiffStage_u_false {ctx : LoopCtx} (r : RowData) (dp3 : Option String)
    (hu : ctx.u = false) :
    rowDiffStage ctx r dp3 = (rowDiff1 ctx r, none, dp3, rowCalls1 ctx r, none) := by
  unfold rowDiffStage
  rw [rowCond2_u_false r hu]
  simp

theorem mem_rowCalls1 {ctx : LoopCtx} {r : RowData} {c : String × String × String}
    (h : c ∈ rowCalls1 ctx r) :
    c.2.2 = diffName (pjoin r.sp r.sf) ctx.sl ctx.dl := by
  unfold rowCalls1 at h
  split at h
  · simp at h
    rw [h]
  · simp at h

theorem rowDiffStage_calls {ctx : LoopCtx} {r : RowData} {dp3 : Option String}
    {c : String × String × String} (h : c ∈ (rowDiffStage ctx r dp3).2.2.2.1) :
    c.2.2 = diffName (pjoin r.sp r.sf) ctx.sl ctx.dl ∨
    c.2.2 = diffName (pjoin r.sp r.sf) ctx.sl ctx.dl2 ∨
    c.2.2 = diffName (pjoin r.sp r.sf) ctx.dl ctx.dl2 := by
  unfold rowDiffStage at h
  split at h
  · split at h
    · simp only [List.mem_append] at h
      rcases h with h | h
      · exact Or.inl (mem_rowCalls1 h)
      · simp at h
        rcases h with h | h
        · exact Or.inr (Or.inl (by rw [h]))
        · exact Or.inr (Or.inr (by rw [h]))
    · simp only [List.mem_append] at h
      rcases h with h | h
      · exact Or.inl (mem_rowCalls1 h)
      · simp at h
        exact Or.inr (Or.inl (by rw [h]))
  · exact Or.inl (mem_rowCalls1 h)

theorem processRow_calls_eq (ctx : LoopCtx) (r : RowData) (curPath : String)
    (dp3 : Option String) :
    (processRow ctx r curPath dp3).2.1 = (rowDiffStage ctx r dp3).2.2.2.1 := by
  simp only [processRow]
  rcases hst : rowDiffStage ctx r dp3 with ⟨dp1, dp2, dp3n, cls, e⟩
  repeat' split
  all_goals rfl

theorem processRow_err_u_false (ctx : LoopCtx) (r : RowData) (curPath : String)
    (hu : ctx.u = false) :
    (processRow ctx r curPath none).2.2.1 = some RunError.diffPath3Unbound := by
  simp only [processRow]
  rw [rowDiffStage_u_false r none hu]

theorem optImgCell_none (ctx : LoopCtx) (k : CellKind) :
    optImgCell ctx k none = [] := rfl

theorem mem_optImgCell {ctx : LoopCtx} {k : CellKind} {o : Option String} {it : Item}
    (h : it ∈ optImgCell ctx k o) : isThirdLangItem it = kindIsThird k := by
  unfold optImgCell at h
  rcases o with _ | p
  · simp at h
  · simp at h
    rcases h with ⟨-, rfl⟩
    rfl

theorem mem_groupItemsOf {r : RowData} {curPath : String} {it : Item}
    (h : it ∈ groupItemsOf r curPath) : isThirdLangItem it = false := by
  unfold groupItemsOf at h
  split at h
  · simp at h
  · simp only [List.mem_append] at h
    rcases h with h | h
    · split at h
      · simp at h
      · simp at h
        rw [h]
        rfl
    · simp at h
      rcases h with rfl | rfl <;> rfl

theorem processRow_u_false_no_third (ctx : LoopCtx) (r : RowData) (curPath : String)
    (hu : ctx.u = false) (hd : r.dest2 = ("", none)) :
    ∀ it ∈ (processRow ctx r curPath none).1, isThirdLangItem it = false := by
  have hopt : ∀ (k : CellKind) (o : Option String), kindIsThird k = false →
      ∀ it ∈ optImgCell ctx k o, isThirdLangItem it = false := by
    intro k o hk it h
    rw [mem_optImgCell h, hk]
  have key : (processRow ctx r curPath none).1 =
      groupItemsOf r curPath ++
      ([Item.trOpen] ++
        optImgCell ctx CellKind.src (if r.sf == "" then none else some (pjoin r.sp r.sf)) ++
        optImgCell ctx CellKind.dest (fullPathOf r.dest1) ++
        optImgCell ctx CellKind.dest2 (fullPathOf r.dest2) ++
        optImgCell ctx CellKind.diff1 (rowDiff1 ctx r) ++
        optImgCell ctx CellKind.diff2 none) := by
    simp only [processRow]
    rw [rowDiffStage_u_false r none hu]
  rw [key, hd]
  refine List.forall_mem_append.mpr ⟨fun it h => mem_groupItemsOf h, ?_⟩
  refine List.forall_mem_append.mpr ⟨?_, fun it h => absurd h (List.not_mem_nil it)⟩
  refine List.forall_mem_append.mpr ⟨?_, hopt _ _ rfl⟩
  refine List.forall_mem_append.mpr ⟨?_, fun it h => absurd h (List.not_mem_nil it)⟩
  refine List.forall_mem_append.mpr ⟨?_, hopt _ _ rfl⟩
  refine List.forall_mem_append.mpr ⟨fun it h => ?_, hopt _ _ rfl⟩
  rw [List.mem_singleton] at h
  rw [h]
  rfl

theorem processRows_u_false_no_third (ctx : LoopCtx) (rows : List RowData) (curPath : String)
    (hu : ctx.u = false) (hd : ∀ r ∈ rows, r.dest2 = ("", none)) :
    ∀ it ∈ (processRows ctx rows curPath none).items, isThirdLangItem it = false := by
  cases rows with
  | nil =>
    intro it hit
    simp [processRows] at hit
  | cons r rest =>
    intro it hit
    have herr := processRow_err_u_false ctx r curPath hu
    have hitems := processRow_u_false_no_third ctx r curPath hu (hd r (List.mem_cons_self r rest))
    rcases hpr : processRow ctx r curPath none with ⟨is, cs, e, d⟩
    rw [hpr] at herr hitems
    simp only at herr
    subst herr
    simp only [processRows, hpr] at hit
    exact hitems it hit

theorem mem_preItems_no_third {args : Args} {cwd : String} {it : Item}
    (h : it ∈ preItems args cwd) : isThirdLangItem it = false := by
  unfold preItems at h
  simp at h
  rcases h with rfl | rfl | rfl | rfl | rfl | rfl | rfl | rfl | rfl | rfl | rfl | rfl | rfl | rfl
    <;> rfl

theorem mainRows_dest2_of_u_false (env : Env) (args : Args)
    (hu : useThirdLang args = false) :
    ∀ r ∈ mainRows env args, r.dest2 = ("", none) := by
  intro r hr
  unfold mainRows at hr
  rw [List.mem_map] at hr
  obtain ⟨pr, _, rfl⟩ := hr
  show resolveDest2 (useThirdLang args) _ _ _ _ _ = ("", none)
  rw [hu, resolveDest2_false]

/-! ## C2: no third-language cells without a second destination language -/

/-- C2 (confirmed).  In every run in which no second destination language
is configured (`useThirdLang` is false: `destlang2` empty, or the
third-language condition not met), the emitted output contains no
destination-2 image or caption cell, no source-vs-destination-2 diff
cell, and no destination-1-vs-destination-2 diff cell — in any row of
the written report (including the partial report of a run that dies
with the `diffPath3` `UnboundLocalError`). -/
theorem no_third_language_cells (env : Env) (args : Args)
    (hu : useThirdLang args = false) :
    ∀ it ∈ (main env args).items, isThirdLangItem it = false := by
  have hctx : (mainCtx env args).u = false := hu
  intro it hit
  by_cases hemp : (mainSources env args).isEmpty
  · simp only [main, hemp, if_true] at hit
    simp only [List.append_nil, List.mem_append] at hit
    rcases hit with hit | hit
    · exact mem_preItems_no_third hit
    · simp at hit
      rcases hit with rfl | rfl | rfl <;> rfl
  · have hd := mainRows_dest2_of_u_false env args hu
    have hloop := processRows_u_false_no_third (mainCtx env args) (mainRows env args) "" hctx hd
    rcases hlp : processRows (mainCtx env args) (mainRows env args) "" none with ⟨is, cls, e⟩
    rw [hlp] at hloop
    simp only [main, hemp, if_false] at hit
    rw [hlp] at hit
    cases e with
    | none =>
      simp at hit
      rcases hit with hit | hit | hit
      · exact mem_preItems_no_third hit
      · exact hloop it hit
      · rcases hit with rfl | rfl | rfl <;> rfl
    | some e0 =>
      simp at hit
      rcases hit with hit | hit
      · exact mem_preItems_no_third hit
      · exact hloop it hit

/-- Witness for `no_third_language_cells` at the argparse defaults with
one discovered source file. -/
theorem no_third_language_cells_witness :
    useThirdLang (Args.mk "." "." "." "tests.html" false false 256 256 0 3 "glsl" "osl" "") =
      false ∧
    Item.trOpen ∈ (main (Env.mk "/cwd" [([], ["foo_glsl.png"])] (fun _ => false) (fun _ => "") true)
      (Args.mk "." "." "." "tests.html" false false 256 256 0 3 "glsl" "osl" "")).items ∧
    isThirdLangItem Item.trOpen = false :=
  ⟨by decide, by decide,
   no_third_language_cells
     (Env.mk "/cwd" [([], ["foo_glsl.png"])] (fun _ => false) (fun _ => "") true)
     (Args.mk "." "." "." "tests.html" false false 256 256 0 3 "glsl" "osl" "")
     (by decide) Item.trOpen (by decide)⟩

/-! ## C8: diff artifact naming -/

theorem processRows_calls (ctx : LoopCtx) (rows : List RowData) :
    ∀ curPath dp3, ∀ c ∈ (processRows ctx rows curPath dp3).calls,
      ∃ r ∈ rows,
        (c.2.2 = diffName (pjoin r.sp r.sf) ctx.sl ctx.dl ∨
         c.2.2 = diffName (pjoin r.sp r.sf) ctx.sl ctx.dl2 ∨
         c.2.2 = diffName (pjoin r.sp r.sf) ctx.dl ctx.dl2) := by
  induction rows with
  | nil =>
    intro curPath dp3 c hc
    simp [processRows] at hc
  | cons r rest ih =>
    intro curPath dp3 c hc
    rcases hpr : processRow ctx r curPath dp3 with ⟨is, cs, e, d⟩
    have hcs : cs = (rowDiffStage ctx r dp3).2.2.2.1 := by
      have h0 := processRow_calls_eq ctx r curPath dp3
      rw [hpr] at h0
      exact h0
    cases e with
    | some e0 =>
      simp only [processRows, hpr] at hc
      refine ⟨r, List.mem_cons_self r rest, ?_⟩
      rw [hcs] at hc
      exact rowDiffStage_calls hc
    | none =>
      simp only [processRows, hpr] at hc
      rw [List.mem_append] at hc
      rcases hc with hc | hc
      · refine ⟨r, List.mem_cons_self r rest, ?_⟩
        rw [hcs] at hc
        exact rowDiffStage_calls hc
      · obtain ⟨r2, hr2, hform⟩ := ih r.sp d c hc
        exact ⟨r2, List.mem_cons_of_mem r hr2, hform⟩

/-- C8 (corrected, amended part).  Every output path handed to
`createDiff` during a run is the row's full source image path with its
final 8 characters removed and `_<langA>_vs_<langB>_diff.png` appended,
where `(langA, langB)` ranges over (sourcelang, destlang),
(sourcelang, destlang2) and (destlang, destlang2).  (The claim's
"equivalently named `<sourceBaseWithoutSuffix>_..._diff.png`" holds
only when the source language tag is 4 characters long — see the
counterexample.) -/
theorem diff_artifact_names (env : Env) (args : Args) :
    ∀ c ∈ (main env args).diffCalls,
      ∃ sf sp, (sf, sp) ∈ discoverSources args.inputdir args.sourcelang env.fsEntries ∧
        (c.2.2 = diffName (pjoin sp sf) args.sourcelang args.destlang ∨
         c.2.2 = diffName (pjoin sp sf) args.sourcelang args.destlang2 ∨
         c.2.2 = diffName (pjoin sp sf) args.destlang args.destlang2) := by
  intro c hc
  by_cases hemp : (mainSources env args).isEmpty
  · simp [main, hemp] at hc
  · rcases hlp : processRows (mainCtx env args) (mainRows env args) "" none with ⟨is, cls, e⟩
    simp only [main, hemp, if_false] at hc
    rw [hlp] at hc
    have hcls : c ∈ cls := by
      cases e <;> simpa using hc
    have hmem : c ∈ (processRows (mainCtx env args) (mainRows env args) "" none).calls := by
      rw [hlp]
      exact hcls
    obtain ⟨r, hr, hform⟩ := processRows_calls (mainCtx env args) (mainRows env args) "" none c hmem
    unfold mainRows at hr
    rw [List.mem_map] at hr
    obtain ⟨pr, hpr, rfl⟩ := hr
    refine ⟨pr.1, pr.2, ?_, hform⟩
    have hsrc : pr ∈ mainSources env args := hpr
    unfold mainSources at hsrc
    exact Prod.mk.eta ▸ hsrc

/-- Witness for `diff_artifact_names`: a run that performs one diff
call. -/
theorem diff_artifact_names_witness :
    ("/a/foo_glsl.png", "/a/foo_osl.png", "/a/foo__glsl_vs_osl_diff.png") ∈
      (main (Env.mk "/cwd" [([], ["foo_glsl.png"])] (fun _ => false) (fun _ => "") true)
        (Args.mk "/a" "/b" "." "o" true false 256 256 0 3 "glsl" "osl" "")).diffCalls ∧
    (∃ sf sp,
      (sf, sp) ∈ discoverSources "/a" "glsl" [([], ["foo_glsl.png"])] ∧
      (("/a/foo_glsl.png", "/a/foo_osl.png", "/a/foo__glsl_vs_osl_diff.png").2.2 =
          diffName (pjoin sp sf) "glsl" "osl" ∨
       ("/a/foo_glsl.png", "/a/foo_osl.png", "/a/foo__glsl_vs_osl_diff.png").2.2 =
          diffName (pjoin sp sf) "glsl" "" ∨
       ("/a/foo_glsl.png", "/a/foo_osl.png", "/a/foo__glsl_vs_osl_diff.png").2.2 =
          diffName (pjoin sp sf) "osl" "")) :=
  ⟨by decide,
   diff_artifact_names
     (Env.mk "/cwd" [([], ["foo_glsl.png"])] (fun _ => false) (fun _ => "") true)
     (Args.mk "/a" "/b" "." "o" true false 256 256 0 3 "glsl" "osl" "")
     ("/a/foo_glsl.png", "/a/foo_osl.png", "/a/foo__glsl_vs_osl_diff.png") (by decide)⟩

/-- Counterexample to C8's "equivalently, all persisted diff PNGs are
named `<sourceBaseWithoutSuffix>_<langA>_vs_<langB>_diff.png`": with a
1-character source language tag `x`, the run's only diff artifact is
`/r_x_vs_osl_diff.png` (final 8 characters of the source path removed),
which differs from `<sourceBaseWithoutSuffix>_..._diff.png` (the source
path with its `x.png` suffix stripped, i.e. `/r/a__x_vs_osl_diff.png`). -/
theorem diff_artifact_names_counterexample :
    (main (Env.mk "/cwd" [([], ["a_x.png"])] (fun _ => false) (fun _ => "") true)
        (Args.mk "/r" "/q" "." "o" true false 256 256 0 3 "x" "osl" "")).diffCalls =
      [("/r/a_x.png", "/r/a_osl.png", "/r_x_vs_osl_diff.png")] ∧
    ("/r_x_vs_osl_diff.png" : String) ≠
      pyNegSlice "/r/a_x.png" ("x" ++ ".png").length ++ "_" ++ "x" ++ "_vs_" ++ "osl" ++
        "_diff.png" := by
  constructor
  · decide
  · decide

/-! ## C9: document structure -/

/-- C9 (corrected, amended part).  With zero discovered source files the
run completes without exception, and the output is exactly the
`<html>` / `<style>` / `<body>` prefix with the heading followed by the
closing `</table></body></html>` writes: the `<html><body>...</body>
</html>` structure and heading are complete, and the only imbalance is
that the trailing `</table>` closes a table that was never opened. -/
theorem empty_discovery_output (env : Env) (args : Args)
    (h : mainSources env args = []) :
    (main env args).items =
      preItems args env.cwd ++ [Item.tableClose, Item.bodyClose, Item.htmlClose] ∧
    (main env args).err = none := by
  have hemp : (mainSources env args).isEmpty = true := by
    rw [h]
    rfl
  simp [main, hemp]

/-- Witness for `empty_discovery_output` on an empty filesystem. -/
theorem empty_discovery_output_witness :
    mainSources (Env.mk "/cwd" [] (fun _ => false) (fun _ => "") true)
      (Args.mk "." "." "." "tests.html" false false 256 256 0 3 "glsl" "osl" "") = [] ∧
    ((main (Env.mk "/cwd" [] (fun _ => false) (fun _ => "") true)
        (Args.mk "." "." "." "tests.html" false false 256 256 0 3 "glsl" "osl" "")).items =
      preItems (Args.mk "." "." "." "tests.html" false false 256 256 0 3 "glsl" "osl" "")
          "/cwd" ++ [Item.tableClose, Item.bodyClose, Item.htmlClose] ∧
     (main (Env.mk "/cwd" [] (fun _ => false) (fun _ => "") true)
        (Args.mk "." "." "." "tests.html" false false 256 256 0 3 "glsl" "osl" "")).err =
       none) :=
  ⟨by decide,
   empty_discovery_output (Env.mk "/cwd" [] (fun _ => false) (fun _ => "") true)
     (Args.mk "." "." "." "tests.html" false false 256 256 0 3 "glsl" "osl" "") (by decide)⟩

/-- Counterexample to C9 as stated: on the run with zero discovered
source files (argparse defaults, empty filesystem) the emitted document
is not well-formed — the final `</table>` write closes a table that was
never opened, so the tag stream fails the stack check. -/
theorem well_formed_html_counterexample :
    mainSources (Env.mk "/cwd" [] (fun _ => false) (fun _ => "") true)
      (Args.mk "." "." "." "tests.html" false false 256 256 0 3 "glsl" "osl" "") = [] ∧
    wellFormedTags (main (Env.mk "/cwd" [] (fun _ => false) (fun _ => "") true)
      (Args.mk "." "." "." "tests.html" false false 256 256 0 3 "glsl" "osl" "")).items =
      false := by
  constructor
  · decide
  · decide

/-! ## C3: the `inputdir=A`, `inputdir2=A` scenario -/

theorem headContent_glue (A : String) :
    ("glsl" : String) ++ " (in: " ++ A ++ ") vs " ++ "osl" ++ " (in: " ++ A ++ ")" =
      "glsl (in: " ++ A ++ ") vs osl (in: " ++ A ++ ")" := by
  have h1 : ("glsl" : String) ++ " (in: " = "glsl (in: " := by decide
  have h2 : (") vs " : String) ++ ("osl" ++ " (in: ") = ") vs osl (in: " := by decide
  simp only [String.append_assoc]
  rw [← String.append_assoc "glsl" " (in: ", h1]
  rw [← String.append_assoc "osl" " (in: ", ← String.append_assoc ") vs ", h2]

/-- C3 (corrected, amended part).  For an absolute directory `A`: with
`inputdir = A` containing `foo_glsl.png`, `sourcelang = glsl`,
`destlang = osl`, `inputdir2 = A` and no second destination language,
discovery finds exactly `foo_glsl.png` with walk directory `A`, the
resolver computes the destination filename `foo_osl.png` in directory
`A` (the join of `inputdir2` with the walk directory collapses to the
absolute walk directory), and the heading reads exactly
`glsl (in: A) vs osl (in: A)`.  (For a relative `A` the destination
directory is `A/A`, not `A` — see the counterexample.) -/
theorem scenario_absolute_inputdir (A cwd : String) (hA : pyStartsWith A "/" = true) :
    discoverSources A "glsl" [([], ["foo_glsl.png"])] = [("foo_glsl.png", A)] ∧
    resolveDest1 A A "glsl" "osl" "foo_glsl.png" A = ("foo_osl.png", some A) ∧
    headContent (Args.mk A A "." "tests.html" false false 256 256 0 3 "glsl" "osl" "") cwd =
      "glsl (in: " ++ A ++ ") vs osl (in: " ++ A ++ ")" := by
  have hne : (A == ".") = false := by
    rcases hA' : (A == ".") with _ | _
    · rfl
    · rw [beq_iff_eq] at hA'
      rw [hA'] at hA
      exact absurd hA (by decide)
  refine ⟨?_, ?_, ?_⟩
  · have hf : strEndsWith "foo_glsl.png" "glsl.png" = true := by decide
    simp [discoverSources, walkDirs, hf]
  · unfold resolveDest1
    have hcond : (!(A == A) || !(("glsl" : String) == "osl")) = true := by simp
    rw [hcond]
    have h1 : pyNegSlice "foo_glsl.png" (("glsl" : String) ++ ".png").length ++ "osl" ++
        ".png" = "foo_osl.png" := by decide
    rw [if_pos rfl, h1, pjoin_abs_right A hA]
  · have hu : useThirdLang
        (Args.mk A A "." "tests.html" false false 256 256 0 3 "glsl" "osl" "") = false := rfl
    unfold headContent
    rw [hu]
    simp only [hne, Bool.false_eq_true, if_false]
    exact headContent_glue A

/-- Witness for `scenario_absolute_inputdir` at `A = "/A"`. -/
theorem scenario_absolute_inputdir_witness :
    pyStartsWith "/A" "/" = true ∧
    (discoverSources "/A" "glsl" [([], ["foo_glsl.png"])] = [("foo_glsl.png", "/A")] ∧
     resolveDest1 "/A" "/A" "glsl" "osl" "foo_glsl.png" "/A" = ("foo_osl.png", some "/A") ∧
     headContent (Args.mk "/A" "/A" "." "tests.html" false false 256 256 0 3 "glsl" "osl" "")
         "/cwd" =
       "glsl (in: " ++ "/A" ++ ") vs osl (in: " ++ "/A" ++ ")") :=
  ⟨by decide, scenario_absolute_inputdir "/A" "/cwd" (by decide)⟩

/-- Counterexample to C3 as stated: for the relative directory `A = "A"`
the scenario's resolver places `foo_osl.png` in directory `A/A` — the
join of `inputdir2 = "A"` with the walk directory `"A"` — not in
directory `A`. -/
theorem scenario_relative_counterexample :
    discoverSources "A" "glsl" [([], ["foo_glsl.png"])] = [("foo_glsl.png", "A")] ∧
    resolveDest1 "A" "A" "glsl" "osl" "foo_glsl.png" "A" = ("foo_osl.png", some "A/A") ∧
    ¬ resolveDest1 "A" "A" "glsl" "osl" "foo_glsl.png" "A" = ("foo_osl.png", some "A") := by
  refine ⟨by decide, by decide, by decide⟩

/-! ## C1: the run does not always terminate normally -/

/-- C1 (code bug).  At the argparse defaults (no second destination
language, diff generation disabled) with one discovered source file,
`main` raises `UnboundLocalError` at `if diffPath3:`: the third-language
diff branch that assigns `diffPath3` never runs, and the `else` branch
resets only `diffPath2`.  The run dies before writing the closing tags,
contradicting "the process always completes and produces a report". -/
theorem run_crashes_default_config :
    mainSources (Env.mk "/cwd" [([], ["foo_glsl.png"])] (fun _ => false) (fun _ => "") true)
      (Args.mk "." "." "." "tests.html" false false 256 256 0 3 "glsl" "osl" "") =
      [("foo_glsl.png", ".")] ∧
    (main (Env.mk "/cwd" [([], ["foo_glsl.png"])] (fun _ => false) (fun _ => "") true)
      (Args.mk "." "." "." "tests.html" false false 256 256 0 3 "glsl" "osl" "")).err =
      some RunError.diffPath3Unbound := by
  constructor
  · decide
  · decide

end TestsToHtml
